import Mathlib

/-!
Shallow embedding of the inter-process discovery and command-channel
subsystem of the vscode-mcp repository.

The embedding covers, translated directly from the TypeScript source:
the Port Resolver (server/src/index.ts, findExtensionPort), the registry
removal logic (extension/src/registryManager.ts, removeServerFromRegistry),
the RPC channel request correlation, timeout, reconnection and outbound
queue logic (server/src/connectionHandler.ts), the Companion command
dispatcher (extension/src/commandHandler.ts, handleCommand) and the diff
approval state (extension diffManager, showDiff and handleChoice).

Paths are modelled with the POSIX separator, matching the registry keys
used throughout the repository.  JS object iteration order is modelled by
list order, and JS object key uniqueness by first-match lookup.
-/

/-- Registry mapping as parsed from the JSON registry file: an ordered list
of workspacePath-to-port entries, in JS object iteration order. -/
abbrev Registry := List (String × Nat)

/-- Model of the JS string method a.startsWith(b): b is a prefix of a.
Stated on the underlying character lists so that it computes by structural
recursion. -/
def jsStartsWith (s p : String) : Bool :=
  p.data.isPrefixOf s.data

/-- Model of the JS object property read in findExtensionPort, written
registry bracket absolutePath: the value bound to the key, if present
(keys of a JS object are unique, so the first binding is the only one). -/
def lookupReg (reg : Registry) (k : String) : Option Nat :=
  (reg.find? (fun e => e.1 == k)).map (fun e => e.2)

/-- Ancestor/descendant test from the loop in findExtensionPort:
absolutePath starts with the workspace key plus separator, or the
workspace key starts with absolutePath plus separator. -/
def workspaceRelated (target : String) (e : String × Nat) : Bool :=
  jsStartsWith target (e.1 ++ "/") || jsStartsWith e.1 (target ++ "/")

/-- Port Resolver, translated from findExtensionPort in server/src/index.ts.
The surrounding guard on targetProjectPath makes an empty target resolve to
none; the exact-match branch is guarded by JS truthiness of the looked-up
value, so a port value of 0 falls through; the loop returns the first entry
in iteration order that passes the ancestor/descendant test; when nothing
matched and the registry is non-empty, the first value of the registry is
returned; only an empty registry yields none. -/
def findExtensionPort (reg : Registry) (target : String) : Option Nat :=
  if target = "" then none
  else if (lookupReg reg target).getD 0 ≠ 0 then lookupReg reg target
  else
    match reg.find? (workspaceRelated target) with
    | some e => some e.2
    | none =>
      match reg with
      | [] => none
      | e :: _ => some e.2

/-- Registry removal on shutdown, translated from removeServerFromRegistry
in extension/src/registryManager.ts: every entry whose port value equals
the port owned by this instance is deleted, all other entries are kept in
order. -/
def removeServerFromRegistry (reg : Registry) (port : Nat) : Registry :=
  reg.filter (fun e => e.2 != port)

/-- C1 counterexample: the claim says that with registry binding the single
key /a to port 1 and target /x/y, which has no exact and no
ancestor/descendant match, the resolver returns none; the code instead
falls back to the first entry and returns port 1. -/
theorem findExtensionPort_fallback_cex :
    findExtensionPort [("/a", 1)] "/x/y" = some 1 ∧
      findExtensionPort [("/a", 1)] "/x/y" ≠ none := by
  constructor
  · decide
  · decide

/-- C1 (amended): when the target is non-empty and has neither an exact
match nor an ancestor/descendant match among the registry keys, the
resolver returns the port of the first registry entry, hence none exactly
when the registry is empty: the resolver itself implements the
first-available-port fallback. -/
theorem findExtensionPort_no_match_first_entry (reg : Registry) (target : String)
    (ht : target ≠ "")
    (hexact : lookupReg reg target = none)
    (hrel : reg.find? (workspaceRelated target) = none) :
    findExtensionPort reg target = reg.head?.map (fun e => e.2) := by
  unfold findExtensionPort
  rw [if_neg ht, hexact, hrel]
  simp only [Option.getD_none, ne_eq, not_true_eq_false, if_false]
  cases reg with
  | nil => rfl
  | cons e rest => rfl

/-- C1 witness: instantiates the amended theorem on a concrete registry. -/
theorem findExtensionPort_no_match_first_entry_witness :
    findExtensionPort [("/a", 1), ("/b", 2)] "/x/y" = some 1 := by
  have h := findExtensionPort_no_match_first_entry [("/a", 1), ("/b", 2)] "/x/y"
    (by decide) (by decide) (by decide)
  simpa using h

/-- C2 counterexample: with the two ancestor keys iterated in the order
/a before /a/b and target /a/b/c, the resolver returns port 2, the port of
the less specific ancestor, because the loop returns the first entry in
iteration order that matches; the claim asserts port 1 regardless of
order. -/
theorem findExtensionPort_order_cex :
    findExtensionPort [("/a", 2), ("/a/b", 1)] "/a/b/c" = some 2 := by
  decide

/-- C2 (amended): when the target has no exact match, the resolver returns
the port of the first entry in registry iteration order that passes the
ancestor/descendant test; with the spec example iterated as /a/b before /a
this yields port 1, but precedence is iteration order, not specificity. -/
theorem findExtensionPort_first_related_match (reg : Registry) (target : String)
    (e : String × Nat)
    (ht : target ≠ "")
    (hexact : lookupReg reg target = none)
    (hrel : reg.find? (workspaceRelated target) = some e) :
    findExtensionPort reg target = some e.2 := by
  unfold findExtensionPort
  rw [if_neg ht, hexact, hrel]
  simp

/-- C2 witness: the spec example registry in its stated insertion order. -/
theorem findExtensionPort_first_related_match_witness :
    findExtensionPort [("/a/b", 1), ("/a", 2)] "/a/b/c" = some 1 := by
  have h := findExtensionPort_first_related_match [("/a/b", 1), ("/a", 2)] "/a/b/c"
    ("/a/b", 1) (by decide) (by decide) (by decide)
  exact h

/-- C9: removal by port keeps exactly the entries whose port value differs
from the given port, preserves their relative order as a sublist of the
original registry, and is invariant under renaming the keys, so removal
never selects entries by key. -/
theorem removeServerFromRegistry_spec (reg : Registry) (port : Nat) :
    (∀ e : String × Nat, e ∈ removeServerFromRegistry reg port ↔ (e ∈ reg ∧ e.2 ≠ port)) ∧
    (removeServerFromRegistry reg port).Sublist reg ∧
    (∀ rename : String → String,
      removeServerFromRegistry (reg.map (fun e => (rename e.1, e.2))) port =
        (removeServerFromRegistry reg port).map (fun e => (rename e.1, e.2))) := by
  refine ⟨?_, ?_, ?_⟩
  · intro e
    simp [removeServerFromRegistry]
  · exact List.filter_sublist reg
  · intro rename
    induction reg with
    | nil => rfl
    | cons e rest ih =>
      by_cases h : e.2 = port
      · simp [removeServerFromRegistry, h] at ih ⊢
        exact ih
      · simp [removeServerFromRegistry, h] at ih ⊢
        exact ih

/-- Outcome of one sendRequest promise: still pending, resolved with the
payload of the matching response, or rejected with an error message. -/
inductive RequestOutcome
  | pendingReq
  | resolvedWith (result : String)
  | rejectedWith (err : String)
deriving DecidableEq

/-- RPC channel state relevant to request correlation, from
MCPConnectionHandler in server/src/connectionHandler.ts: the monotonic
request counter, the keys of the pendingRequests map, and the promise
outcome of every request issued so far (newest first).  A wire correlation
id is the string req_ followed by the decimal counter value; since the
prefix is constant, the id determines and is determined by the counter, so
the embedding keys requests by the counter value. -/
structure RpcState where
  requestCounter : Nat
  pendingIds : List Nat
  outcomes : List (Nat × RequestOutcome)
deriving DecidableEq

/-- Fresh channel as built by the MCPConnectionHandler constructor. -/
def RpcState.start : RpcState := ⟨0, [], []⟩

/-- Translation of sendRequest: increment the counter, form the new id,
register the pending entry, and hand back the id. -/
def sendRequest (s : RpcState) : RpcState × Nat :=
  let id := s.requestCounter + 1
  (⟨id, id :: s.pendingIds, (id, RequestOutcome.pendingReq) :: s.outcomes⟩, id)

/-- Settle the promise bound to the given id. -/
def setOutcome (l : List (Nat × RequestOutcome)) (id : Nat) (o : RequestOutcome) :
    List (Nat × RequestOutcome) :=
  l.map (fun e => if e.1 = id then (id, o) else e)

/-- Outcome currently recorded for a request id (newest binding wins). -/
def outcomeOf (s : RpcState) (id : Nat) : Option RequestOutcome :=
  (s.outcomes.find? (fun e => e.1 == id)).map (fun e => e.2)

/-- Translation of the response branch of handleData: a parsed message
whose id is a key of the pendingRequests map resolves that request with
the response payload and deletes the entry; a message whose id has no
pending entry leaves the table and every promise untouched (it is treated
as a notification). -/
def handleData (s : RpcState) (respId : Nat) (result : String) : RpcState :=
  if respId ∈ s.pendingIds then
    ⟨s.requestCounter, s.pendingIds.erase respId,
      setOutcome s.outcomes respId (RequestOutcome.resolvedWith result)⟩
  else s

/-- Translation of the timeout callback registered by sendRequest: if the
id is still pending, delete the entry and reject the promise; otherwise do
nothing. -/
def fireTimeout (s : RpcState) (id : Nat) : RpcState :=
  if id ∈ s.pendingIds then
    ⟨s.requestCounter, s.pendingIds.erase id,
      setOutcome s.outcomes id (RequestOutcome.rejectedWith "Request timeout")⟩
  else s

/-- C3: two sendRequest calls on one channel receive distinct correlation
ids, and even when the two responses are delivered in the reverse of the
sending order, each request is resolved with the payload of the response
carrying its own id, never the other one. -/
theorem sendRequest_correlation (s : RpcState) (r1 r2 : String) :
    (sendRequest s).2 ≠ (sendRequest (sendRequest s).1).2 ∧
    outcomeOf
      (handleData
        (handleData (sendRequest (sendRequest s).1).1 (sendRequest (sendRequest s).1).2 r2)
        (sendRequest s).2 r1)
      (sendRequest s).2 = some (RequestOutcome.resolvedWith r1) ∧
    outcomeOf
      (handleData
        (handleData (sendRequest (sendRequest s).1).1 (sendRequest (sendRequest s).1).2 r2)
        (sendRequest s).2 r1)
      (sendRequest (sendRequest s).1).2 = some (RequestOutcome.resolvedWith r2) := by
  have hne : s.requestCounter + 1 ≠ s.requestCounter + 1 + 1 := by omega
  refine ⟨by simp [sendRequest], ?_, ?_⟩
  · simp [sendRequest, handleData, setOutcome, outcomeOf, List.erase_cons, hne, hne.symm]
  · simp [sendRequest, handleData, setOutcome, outcomeOf, List.erase_cons, hne, hne.symm]

/-- C4: after the timeout callback for a request has fired, deleting the
pending entry and rejecting the promise, a late response carrying the same
id finds no pending entry, leaves the channel state completely unchanged,
and the request stays rejected: the already-rejected promise is never
resolved. -/
theorem handleData_after_timeout (s : RpcState) (r : String)
    (hwf : ∀ i ∈ s.pendingIds, i ≤ s.requestCounter) :
    outcomeOf (fireTimeout (sendRequest s).1 (sendRequest s).2) (sendRequest s).2 =
      some (RequestOutcome.rejectedWith "Request timeout") ∧
    handleData (fireTimeout (sendRequest s).1 (sendRequest s).2) (sendRequest s).2 r =
      fireTimeout (sendRequest s).1 (sendRequest s).2 := by
  have hnotin : s.requestCounter + 1 ∉ s.pendingIds := by
    intro h
    exact absurd (hwf _ h) (by omega)
  constructor
  · simp [sendRequest, fireTimeout, setOutcome, outcomeOf, List.erase_cons]
  · simp [sendRequest, fireTimeout, handleData, List.erase_cons, hnotin]

/-- C4 witness: concrete run from a fresh channel. -/
theorem handleData_after_timeout_witness :
    outcomeOf (fireTimeout (sendRequest RpcState.start).1 (sendRequest RpcState.start).2)
        (sendRequest RpcState.start).2 =
      some (RequestOutcome.rejectedWith "Request timeout") ∧
    handleData (fireTimeout (sendRequest RpcState.start).1 (sendRequest RpcState.start).2)
        (sendRequest RpcState.start).2 "late" =
      fireTimeout (sendRequest RpcState.start).1 (sendRequest RpcState.start).2 :=
  handleData_after_timeout RpcState.start "late" (by simp [RpcState.start])

/-- Reconnection options from ConnectionOptions in
server/src/connectionHandler.ts: the base delay (default 1000) and the
maximum attempt count (default 5). -/
structure ConnectionOptions where
  reconnectDelay : Nat
  reconnectAttempts : Nat
deriving DecidableEq

/-- Reconnection bookkeeping of MCPConnectionHandler: the reconnecting
flag, the pending reconnect timer (its delay in milliseconds if one is
set), and the attempt counter. -/
structure ReconnectState where
  reconnecting : Bool
  reconnectTimer : Option Nat
  reconnectAttempt : Nat
deriving DecidableEq

/-- Events emitted by the reconnect logic. -/
inductive ChannelEvent
  | reconnectFailed
  | reconnected
deriving DecidableEq

/-- Translation of scheduleReconnect: if the reconnecting flag is set or a
timer is already pending, return immediately; otherwise set the flag,
increment the attempt counter, and arm a timer whose delay is the explicit
argument if given, else the exponential backoff value, the minimum of
baseDelay times 2 to the power attempt minus 1 and 30000. -/
def scheduleReconnect (o : ConnectionOptions) (s : ReconnectState) (delay : Option Nat) :
    ReconnectState :=
  if s.reconnecting || s.reconnectTimer.isSome then s
  else
    let attempt := s.reconnectAttempt + 1
    ⟨true, some (delay.getD (min (o.reconnectDelay * 2 ^ (attempt - 1)) 30000)), attempt⟩

/-- Translation of the timer callback armed by scheduleReconnect, with the
outcome of the awaited connect call passed in as connectOk.  The callback
clears the timer field, then: if the attempt counter exceeds the maximum,
emits the terminal reconnectFailed event and clears the reconnecting flag;
on a successful connect, the connect event handler resets the attempt
counter to 0, the flag is cleared and reconnected is emitted; on a failed
connect the catch branch calls scheduleReconnect again, with the
reconnecting flag still set. -/
def fireReconnectTimer (o : ConnectionOptions) (connectOk : Bool) (s : ReconnectState) :
    ReconnectState × List ChannelEvent :=
  let s1 : ReconnectState := ⟨s.reconnecting, none, s.reconnectAttempt⟩
  if o.reconnectAttempts < s1.reconnectAttempt then
    (⟨false, none, s1.reconnectAttempt⟩, [ChannelEvent.reconnectFailed])
  else if connectOk then
    (⟨false, none, 0⟩, [ChannelEvent.reconnected])
  else
    (scheduleReconnect o s1 none, [])

/-- Default options used by the Agent-Facing Server: base delay 1000,
maximum 5 attempts. -/
def defaultReconnectOptions : ConnectionOptions := ⟨1000, 5⟩

/-- C5 evaluated at the failing input: from the idle state after an
unexpected close, attempt 1 is armed with the 1000 millisecond backoff
delay, and the per-attempt delay formula at counters 0 through 4 would
produce 1000, 2000, 4000, 8000, 16000; but when attempt 1 fires and its
connect fails, the catch branch re-enters scheduleReconnect while the
reconnecting flag is still set, so the call returns without arming a
timer: the resulting state has no timer, emitted no event, and every
further scheduleReconnect call, including the zero-delay one from send,
leaves it unchanged.  Attempt 2 with delay 2000 is never scheduled and the
terminal reconnectFailed event is never reached on this path, contradicting
the claimed backoff sequence of attempts 1 through 5. -/
theorem scheduleReconnect_no_second_attempt :
    (List.range 5).map
        (fun k => (scheduleReconnect defaultReconnectOptions ⟨false, none, k⟩ none).reconnectTimer) =
      [some 1000, some 2000, some 4000, some 8000, some 16000] ∧
    scheduleReconnect defaultReconnectOptions ⟨false, none, 0⟩ none = ⟨true, some 1000, 1⟩ ∧
    fireReconnectTimer defaultReconnectOptions false ⟨true, some 1000, 1⟩ =
      (⟨true, none, 1⟩, []) ∧
    scheduleReconnect defaultReconnectOptions ⟨true, none, 1⟩ none = ⟨true, none, 1⟩ ∧
    scheduleReconnect defaultReconnectOptions ⟨true, none, 1⟩ (some 0) = ⟨true, none, 1⟩ := by
  refine ⟨by decide, by decide, by decide, by decide, by decide⟩

/-- Translation of the disconnected branch of send: the raw payload is
pushed onto the back of the outbound message queue instead of failing. -/
def sendWhileDisconnected (queue : List String) (payload : String) : List String :=
  queue ++ [payload]

/-- Translation of processQueue: repeatedly shift the front message; the
JS truthiness guard on the shifted message skips an empty string without
writing it; otherwise attempt the socket write, whose success is given by
the writeOk oracle indexed by the number of writes attempted so far; on a
write failure the message is unshifted back to the front and the flush
aborts.  The result is the pair of the messages written, in order, and the
queue left behind. -/
def processQueue (writeOk : Nat → Bool) : Nat → List String → List String × List String
  | _, [] => ([], [])
  | k, m :: rest =>
    if m = "" then processQueue writeOk k rest
    else if writeOk k then
      ((processQueue writeOk (k + 1) rest).1.cons m, (processQueue writeOk (k + 1) rest).2)
    else ([], m :: rest)

/-- C6 counterexample: queueing the empty payload and then hello while
disconnected, a flush on which every write succeeds writes only hello; the
empty payload is shifted off the queue by the truthiness guard without
being written and without being re-queued, so a queued message is dropped,
contradicting the claim for this sequence of send calls. -/
theorem processQueue_drops_empty_cex :
    processQueue (fun _ => true) 0
        (sendWhileDisconnected (sendWhileDisconnected [] "") "hello") = (["hello"], []) ∧
    "" ∉ (processQueue (fun _ => true) 0
        (sendWhileDisconnected (sendWhileDisconnected [] "") "hello")).1 ∧
    "" ∉ (processQueue (fun _ => true) 0
        (sendWhileDisconnected (sendWhileDisconnected [] "") "hello")).2 := by
  refine ⟨by decide, by decide, by decide⟩

/-- C6 (amended): as long as no queued payload is the empty string, a
flush writes a prefix of the queue in FIFO order and leaves exactly the
rest, the failed message first; concatenating the written messages with
the remaining queue gives back the original queue, so no non-empty queued
message is dropped and relative order is preserved.  An empty payload,
however, is removed from the queue without being written. -/
theorem processQueue_preserves_order (writeOk : Nat → Bool) (k : Nat) (queue : List String)
    (hne : "" ∉ queue) :
    (processQueue writeOk k queue).1 ++ (processQueue writeOk k queue).2 = queue := by
  induction queue generalizing k with
  | nil => rfl
  | cons m rest ih =>
    have hm : ¬ m = "" := by
      intro h
      exact hne (h ▸ List.mem_cons_self m rest)
    have hrest : "" ∉ rest := fun h => hne (List.mem_cons_of_mem m h)
    by_cases hw : writeOk k
    · simp [processQueue, hm, hw, ih (k + 1) hrest]
    · simp [processQueue, hm, hw]

/-- C6 witness: a flush on which the second write fails keeps the failed
message at the front of the remaining queue and drops nothing. -/
theorem processQueue_preserves_order_witness :
    (processQueue (fun k => k == 0) 0 ["a", "b", "c"]).1 ++
      (processQueue (fun k => k == 0) 0 ["a", "b", "c"]).2 = ["a", "b", "c"] :=
  processQueue_preserves_order (fun k => k == 0) 0 ["a", "b", "c"] (by decide)

/-- Feature flags read from SettingsManager.getSettings() before dispatch. -/
structure SettingsState where
  diffingEnabled : Bool
  fileOpeningEnabled : Bool
  shellCommandsEnabled : Bool
deriving DecidableEq

/-- Response written to the Companion socket, from BaseResponse and
DiffResponse in extension/src/types: the success flag, the optional error
message, and for diff responses the accepted flag. -/
structure BaseResponse where
  success : Bool
  error : Option String := none
  accepted : Option Bool := none
deriving DecidableEq

/-- Translation of DiffManager.createDiffResponse: success always true,
plus the accepted flag. -/
def createDiffResponse (accepted : Bool) : BaseResponse :=
  { success := true, accepted := some accepted }

/-- The Companion diff handler handleShowDiff: await the user choice from
DiffManager.showDiff and wrap it with createDiffResponse. -/
def handleShowDiff (accepted : Bool) : BaseResponse :=
  createDiffResponse accepted

/-- Command types registered by registerCommandHandlers in
extension/src/commandHandler.ts. -/
def registeredCommandTypes : List String :=
  ["showDiff", "open", "openFolder", "getCurrentWorkspace", "ping",
   "focusWindow", "getActiveTabs", "getContextTabs", "executeShellCommand",
   "getCompletions"]

/-- The settings checks at the top of handleCommand: a disabled feature
short-circuits dispatch with a deterministic response, auto-accept for
showDiff, explicit failure for open and executeShellCommand. -/
def featureGate (settings : SettingsState) (cmdType : String) : Option BaseResponse :=
  if cmdType = "showDiff" && !settings.diffingEnabled then
    some (createDiffResponse true)
  else if cmdType = "open" && !settings.fileOpeningEnabled then
    some { success := false, error := some "File opening is disabled in MCP settings" }
  else if cmdType = "executeShellCommand" && !settings.shellCommandsEnabled then
    some { success := false, error := some "Shell command execution is disabled in MCP settings" }
  else none

/-- Translation of CommandHandler.handleCommand.  The behaviour of each
registered handler is the environment parameter handlerRun: a normal
return is ok with its response, a thrown exception is error with its
message.  The returned list is the sequence of writes made to the socket:
the settings gate or the looked-up handler produces one response inside
the try block, an unregistered command type produces the unknown-command
failure response, and the surrounding catch converts a thrown exception
into a failure response carrying the message. -/
def handleCommand (settings : SettingsState)
    (handlerRun : String → Except String BaseResponse) (cmdType : String) :
    List BaseResponse :=
  match featureGate settings cmdType with
  | some r => [r]
  | none =>
    if cmdType ∈ registeredCommandTypes then
      match handlerRun cmdType with
      | Except.ok r => [r]
      | Except.error msg => [{ success := false, error := some msg }]
    else
      [{ success := false, error := some ("Unknown command type: " ++ cmdType) }]

/-- C7: for every settings state, handler behaviour and command type, the
dispatcher writes exactly one response; a command type with no registered
handler yields the unknown-command failure response without throwing, and
when the dispatch reaches a handler that throws, the exception is caught
at the boundary and converted into a failure response with its message. -/
theorem handleCommand_writes_exactly_one (settings : SettingsState)
    (handlerRun : String → Except String BaseResponse) (cmdType : String) :
    (handleCommand settings handlerRun cmdType).length = 1 ∧
    (cmdType ∉ registeredCommandTypes →
      handleCommand settings handlerRun cmdType =
        [{ success := false, error := some ("Unknown command type: " ++ cmdType) }]) ∧
    (∀ msg, featureGate settings cmdType = none → cmdType ∈ registeredCommandTypes →
      handlerRun cmdType = Except.error msg →
      handleCommand settings handlerRun cmdType =
        [{ success := false, error := some msg }]) := by
  refine ⟨?_, ?_, ?_⟩
  · unfold handleCommand
    cases hg : featureGate settings cmdType with
    | some r => rfl
    | none =>
      by_cases hr : cmdType ∈ registeredCommandTypes
      · simp only [hr, if_true]
        cases handlerRun cmdType <;> rfl
      · simp [hr]
  · intro hnr
    have hg : featureGate settings cmdType = none := by
      have h1 : cmdType ≠ "showDiff" := by
        intro h; exact hnr (h ▸ by simp [registeredCommandTypes])
      have h2 : cmdType ≠ "open" := by
        intro h; exact hnr (h ▸ by simp [registeredCommandTypes])
      have h3 : cmdType ≠ "executeShellCommand" := by
        intro h; exact hnr (h ▸ by simp [registeredCommandTypes])
      simp [featureGate, h1, h2, h3]
    simp [handleCommand, hg, hnr]
  · intro msg hg hr hmsg
    simp [handleCommand, hg, hr, hmsg]

/-- C7 witness: a command type absent from the handler table is answered
with the unknown-command failure response. -/
theorem handleCommand_writes_exactly_one_witness :
    handleCommand ⟨true, true, true⟩ (fun _ => Except.error "boom") "frobnicate" =
      [{ success := false, error := some ("Unknown command type: " ++ "frobnicate") }] :=
  (handleCommand_writes_exactly_one ⟨true, true, true⟩
    (fun _ => Except.error "boom") "frobnicate").2.1 (by decide)

/-- C8: a showDiff command that reaches the dispatcher is always answered
with a single response built by createDiffResponse, so success is true and
an accepted flag is present, never a failure response; in particular when
diffing is disabled in settings the dispatcher auto-responds with success
and accepted both true. -/
theorem handleCommand_showDiff_success (settings : SettingsState)
    (handlerRun : String → Except String BaseResponse) (b : Bool)
    (hrun : handlerRun "showDiff" = Except.ok (handleShowDiff b)) :
    (∃ a : Bool, handleCommand settings handlerRun "showDiff" = [createDiffResponse a]) ∧
    (∀ r ∈ handleCommand settings handlerRun "showDiff",
      r.success = true ∧ r.error = none ∧ r.accepted ≠ none) ∧
    (settings.diffingEnabled = false →
      handleCommand settings handlerRun "showDiff" = [createDiffResponse true]) := by
  cases hd : settings.diffingEnabled with
  | false =>
    refine ⟨⟨true, ?_⟩, ?_, fun _ => ?_⟩ <;>
      simp [handleCommand, featureGate, hd, createDiffResponse]
  | true =>
    have hmain : handleCommand settings handlerRun "showDiff" = [createDiffResponse b] := by
      simp [handleCommand, featureGate, hd, registeredCommandTypes, hrun, handleShowDiff]
    refine ⟨⟨b, hmain⟩, ?_, fun h => by simp at h⟩
    intro r hr
    rw [hmain] at hr
    simp only [List.mem_singleton] at hr
    subst hr
    simp [createDiffResponse]

/-- C8 witness: concrete instantiation with diffing enabled and the user
rejecting the diff. -/
theorem handleCommand_showDiff_success_witness :
    ∃ a : Bool, handleCommand ⟨true, true, true⟩
      (fun _ => Except.ok (handleShowDiff false)) "showDiff" = [createDiffResponse a] :=
  (handleCommand_showDiff_success ⟨true, true, true⟩
    (fun _ => Except.ok (handleShowDiff false)) false rfl).1

/-- Mutable instance state of the Companion DiffManager.  The resolve
callback stored in resolveChoice is identified by the session id of the
showDiff call that created it; resolvedLog records, newest first, every
promise resolution performed by handleChoice together with its boolean. -/
structure DiffManagerState where
  resolveChoice : Option Nat
  originalFilePath : Option String
  resolvedLog : List (Nat × Bool)
deriving DecidableEq

/-- DiffManager state right after construction: no pending session. -/
def DiffManagerState.idle : DiffManagerState := ⟨none, none, []⟩

/-- Externally triggered transitions on the DiffManager: a showDiff call
opening a review session, or the user pressing accept or reject, which
runs handleChoice. -/
inductive DiffEvent
  | showDiff (sessionId : Nat) (originalPath : String)
  | handleChoice (accepted : Bool)
deriving DecidableEq

/-- Translation of DiffManager.showDiff and DiffManager.handleChoice.
showDiff unconditionally overwrites originalFilePath and the stored
resolve callback with the new session.  handleChoice returns immediately
when no callback is stored; otherwise it resolves the stored callback with
the boolean, clears originalFilePath and clears the callback. -/
def diffStep (s : DiffManagerState) : DiffEvent → DiffManagerState
  | DiffEvent.showDiff sid p => ⟨some sid, some p, s.resolvedLog⟩
  | DiffEvent.handleChoice b =>
    match s.resolveChoice with
    | none => s
    | some sid => ⟨none, none, (sid, b) :: s.resolvedLog⟩

/-- Left fold of diffStep over a sequence of events. -/
def diffRun (s : DiffManagerState) (events : List DiffEvent) : DiffManagerState :=
  events.foldl diffStep s

/-- Helper invariant: a session id that is not the stored callback, has
not been resolved, and is never the subject of a later showDiff, is never
resolved by any sequence of events. -/
theorem diffRun_never_resolves (sid : Nat) (events : List DiffEvent)
    (s : DiffManagerState)
    (hrc : s.resolveChoice ≠ some sid)
    (hlog : sid ∉ s.resolvedLog.map Prod.fst)
    (hev : ∀ p, DiffEvent.showDiff sid p ∉ events) :
    (diffRun s events).resolveChoice ≠ some sid ∧
      sid ∉ (diffRun s events).resolvedLog.map Prod.fst := by
  induction events generalizing s with
  | nil => exact ⟨hrc, hlog⟩
  | cons e rest ih =>
    have hev1 : ∀ p, DiffEvent.showDiff sid p ∉ rest := by
      intro p hp
      exact hev p (List.mem_cons_of_mem e hp)
    cases e with
    | showDiff sid2 p =>
      have hne : sid2 ≠ sid := by
        intro h
        exact hev p (h ▸ List.mem_cons_self _ rest)
      refine ih ⟨some sid2, some p, s.resolvedLog⟩ ?_ hlog hev1
      simp [hne]
    | handleChoice b =>
      have hrun : diffRun s (DiffEvent.handleChoice b :: rest) =
          diffRun (diffStep s (DiffEvent.handleChoice b)) rest := rfl
      rw [hrun]
      cases hrc2 : s.resolveChoice with
      | none =>
        have hstep : diffStep s (DiffEvent.handleChoice b) = s := by
          simp [diffStep, hrc2]
        rw [hstep]
        exact ih s hrc hlog hev1
      | some sid2 =>
        have hne : sid2 ≠ sid := by
          intro h
          exact hrc (by rw [hrc2, h])
        have hstep : diffStep s (DiffEvent.handleChoice b) =
            ⟨none, none, (sid2, b) :: s.resolvedLog⟩ := by
          simp [diffStep, hrc2]
        rw [hstep]
        refine ih _ (by simp) ?_ hev1
        simp only [List.map_cons, List.mem_cons, not_or]
        exact ⟨fun h => hne h.symm, hlog⟩

/-- C10: a second showDiff issued while a first session is still awaiting
the user overwrites both the stored resolve callback and originalFilePath
with the new session; from then on, no sequence of accept or reject
transitions (or further unrelated sessions) ever resolves the first
session, so the first caller never receives a response. -/
theorem showDiff_overwrite_loses_first_session (s1 s2 : Nat) (p1 p2 : String)
    (events : List DiffEvent)
    (hne : s1 ≠ s2)
    (hev : ∀ p, DiffEvent.showDiff s1 p ∉ events) :
    (diffStep (diffStep DiffManagerState.idle (DiffEvent.showDiff s1 p1))
        (DiffEvent.showDiff s2 p2)).resolveChoice = some s2 ∧
    (diffStep (diffStep DiffManagerState.idle (DiffEvent.showDiff s1 p1))
        (DiffEvent.showDiff s2 p2)).originalFilePath = some p2 ∧
    s1 ∉ (diffRun (diffStep (diffStep DiffManagerState.idle (DiffEvent.showDiff s1 p1))
        (DiffEvent.showDiff s2 p2)) events).resolvedLog.map Prod.fst := by
  refine ⟨rfl, rfl, ?_⟩
  refine (diffRun_never_resolves s1 events _ ?_ ?_ hev).2
  · simp [diffStep, hne.symm]
  · simp [diffStep, DiffManagerState.idle]

/-- C10 witness: the user accepts and then rejects after the overwrite;
session 1 is never resolved. -/
theorem showDiff_overwrite_loses_first_session_witness :
    1 ∉ (diffRun (diffStep (diffStep DiffManagerState.idle (DiffEvent.showDiff 1 "/o1"))
        (DiffEvent.showDiff 2 "/o2"))
        [DiffEvent.handleChoice true, DiffEvent.handleChoice false]).resolvedLog.map
        Prod.fst :=
  (showDiff_overwrite_loses_first_session 1 2 "/o1" "/o2"
    [DiffEvent.handleChoice true, DiffEvent.handleChoice false]
    (by decide) (by intro p hp; simp at hp)).2.2
